import Mathlib

/-!
Shallow embedding of the Datex-Ohmeda DRI binary decoder (Go package
`serial` of harusin0516/healthcare) and proofs about its behaviour.

Modelling conventions:
* A byte buffer (`[]byte`) is a `List Nat`; each entry of an actual wire
  buffer is `< 256`, but the decoders only ever read bytes, so the
  statements do not need that hypothesis.
* Go functions returning `(T, error)` become `GoExc T`; the distinct error
  values constructed by the source are the constructors of `GoError`.
  A Go runtime panic (index out of range, slice bound out of range,
  `make` with negative length) is the `GoExc.panic` outcome.
* Machine integers are `Int`/`Nat`; `int16(binary.LittleEndian.Uint16 b)`
  is `toInt16 (u16le b i)`.
* `float64` results of the sample conversion are modelled as `Option ℚ`:
  `math.NaN()` is `none`, a finite value is the exact rational.
* Wall-clock timestamps (`time.Now()`) and JSON string rendering are not
  modelled; the `...JSON` structures keep the decoded data the source
  puts into them.
-/

namespace Serial

abbrev Bytes := List Nat

/-- Byte read `data[i]` when the caller has already checked the bound
(Go would panic out of range; total version used only under such checks). -/
def byteAt (data : Bytes) (i : Nat) : Nat := data.getD i 0

/-- `binary.LittleEndian.Uint16(data[i:])`. -/
def u16le (data : Bytes) (i : Nat) : Nat :=
  byteAt data i + 256 * byteAt data (i + 1)

/-- `binary.LittleEndian.Uint32(data[i:])`. -/
def u32le (data : Bytes) (i : Nat) : Nat :=
  byteAt data i + 256 * byteAt data (i + 1) + 65536 * byteAt data (i + 2) +
    16777216 * byteAt data (i + 3)

/-- Go's `int16(u)` conversion of a `uint16` value. -/
def toInt16 (u : Nat) : Int :=
  if u < 32768 then (u : Int) else (u : Int) - 65536

/-- Go's `uint16(v)` conversion of an `int16` value. -/
def u16ofInt (v : Int) : Nat := (v % 65536).toNat

/-- The distinct error values the source constructs. -/
inductive GoError
  /-- the shared `ErrInvalidDataLength` value -/
  | invalidDataLength
  /-- `fmt.Errorf("data too short: ...")` -/
  | dataTooShort
  /-- `fmt.Errorf("data length mismatch: expected %d, got %d")` -/
  | lengthMismatch
  /-- `fmt.Errorf("failed to parse header: %w", err)` -/
  | headerParse
  /-- `fmt.Errorf("invalid record type for alarm data")` -/
  | invalidRecordType
  /-- `fmt.Errorf("invalid act_len: %d")` -/
  | invalidActLen
  /-- rejection of a record whose declared RLen violates the record invariant -/
  | invalidRecordLength
  deriving DecidableEq, Repr

/-- Outcome of a Go call: normal value, returned error, or runtime panic. -/
inductive GoExc (α : Type)
  | ok (a : α)
  | err (e : GoError)
  | panic
  deriving DecidableEq, Repr

/-- The `addError` call sites of the two parsers (the human-readable
diagnostic strings, one constructor per call site). -/
inductive Diag
  | dataTooShortAlarm
  | headerParseFailed
  | typeMismatch
  | unknownAlarmSubrType
  | alarmStatusParse
  | alarmSubrecordsParse
  | phRecordTooShort
  | phRecordParse
  | auxTooShort
  | auxParse
  | recordParse
  | physSubrecordsParse
  | subrecordsFailed
  | alarmDataFailed
  | trendFailedAt (offset : Nat)
  | headerFailedAt (offset : Nat)
  | invalidLenAt (offset : Nat)
  | alarmFailedAt (offset : Nat)
  deriving DecidableEq, Repr

/-! ## Waveform subrecord types and conversion (parse_trend.go) -/

def DRI_WF_CO2 : Int := 9
def DRI_WF_O2 : Int := 10
def DRI_WF_N2O : Int := 11
def DRI_WF_AA : Int := 12
def DRI_WF_AWP : Int := 13
def DRI_WF_FLOW : Int := 14
def DRI_WF_RESP : Int := 15
def DRI_WF_INVP5 : Int := 16
def DRI_WF_INVP6 : Int := 17
def DRI_WF_EEG1 : Int := 18
def DRI_WF_EEG2 : Int := 19
def DRI_WF_EEG3 : Int := 20
def DRI_WF_EEG4 : Int := 21
def DRI_WF_ECG12 : Int := 22
def DRI_WF_VOL : Int := 23
def DRI_WF_TONO_PRESS : Int := 24
def DRI_WF_SPI_LOOP_STATUS : Int := 29
def DRI_WF_ENT_100 : Int := 32
def DRI_WF_EEG_BIS : Int := 35
def DRI_WF_INVP7 : Int := 36
def DRI_WF_INVP8 : Int := 37
def DRI_WF_PLETH_2 : Int := 38
def DRI_WF_RESP_100 : Int := 39

/-- Modelled from the spec: the constant `DRI_WF_PLETH` is referenced by
`ConvertSampleToPhysicalValue` and `GetSamplingRate` but its definition is
not under src/.  The spec lists the plethysmograph among the ÷100 waveform
channels; the DRI waveform numbering places it at 8, directly before
`DRI_WF_CO2 = 9`. -/
def DRI_WF_PLETH : Int := 8

def SAMPLE_RATE_ECG : Nat := 300
def SAMPLE_RATE_ECG12 : Nat := 500
def SAMPLE_RATE_INVP : Nat := 100
def SAMPLE_RATE_PLETH : Nat := 100
def SAMPLE_RATE_CO2 : Nat := 25

/-- `IsControlCode`: values less or equal to -32000 are control codes. -/
def IsControlCode (sample : Int) : Bool := decide (sample ≤ -32000)

/-- `ConvertSampleToPhysicalValue` (float64 modelled as `Option ℚ`,
`math.NaN()` as `none`). -/
def ConvertSampleToPhysicalValue (sample : Int) (subrecordType : Int) : Option ℚ :=
  if IsControlCode sample then none
  else if subrecordType = DRI_WF_ECG12 then some (sample : ℚ)
  else if subrecordType = DRI_WF_INVP5 ∨ subrecordType = DRI_WF_INVP6 ∨
      subrecordType = DRI_WF_INVP7 ∨ subrecordType = DRI_WF_INVP8 then
    some ((sample : ℚ) / 100)
  else if subrecordType = DRI_WF_PLETH ∨ subrecordType = DRI_WF_PLETH_2 then
    some ((sample : ℚ) / 100)
  else if subrecordType = DRI_WF_CO2 ∨ subrecordType = DRI_WF_O2 ∨
      subrecordType = DRI_WF_N2O ∨ subrecordType = DRI_WF_AA then
    some ((sample : ℚ) / 100)
  else some (sample : ℚ)

/-- `GetSamplingRate`. -/
def GetSamplingRate (subrecordType : Int) : Nat :=
  if subrecordType = DRI_WF_ECG12 then SAMPLE_RATE_ECG12
  else if subrecordType = DRI_WF_INVP5 ∨ subrecordType = DRI_WF_INVP6 ∨
      subrecordType = DRI_WF_INVP7 ∨ subrecordType = DRI_WF_INVP8 then
    SAMPLE_RATE_INVP
  else if subrecordType = DRI_WF_PLETH ∨ subrecordType = DRI_WF_PLETH_2 then
    SAMPLE_RATE_PLETH
  else if subrecordType = DRI_WF_CO2 ∨ subrecordType = DRI_WF_O2 ∨
      subrecordType = DRI_WF_N2O ∨ subrecordType = DRI_WF_AA then
    SAMPLE_RATE_CO2
  else SAMPLE_RATE_ECG

/-- The divisor table exactly as the spec sentence words it: 100 for the
invasive-pressure, plethysmograph and gas (CO2/O2/N2O/AA) types, 1 for
12-lead ECG and for every other type. -/
def specDivisor (subrecordType : Int) : ℚ :=
  if subrecordType = DRI_WF_INVP5 ∨ subrecordType = DRI_WF_INVP6 ∨
      subrecordType = DRI_WF_INVP7 ∨ subrecordType = DRI_WF_INVP8 ∨
      subrecordType = DRI_WF_PLETH ∨ subrecordType = DRI_WF_PLETH_2 ∨
      subrecordType = DRI_WF_CO2 ∨ subrecordType = DRI_WF_O2 ∨
      subrecordType = DRI_WF_N2O ∨ subrecordType = DRI_WF_AA then 100
  else 1

/-! ## Waveform header, data and parser (parse_trend.go, waveform file) -/

structure WaveformHeader where
  ActLen : Int
  Status : Nat
  Label : Nat
  deriving DecidableEq, Repr

def WaveformHeader.size : Nat := 6

/-- `WaveformHeader.UnmarshalBinary`. -/
def WaveformHeader.UnmarshalBinary (data : Bytes) : GoExc WaveformHeader :=
  if data.length < WaveformHeader.size then .err .invalidDataLength
  else .ok ⟨toInt16 (u16le data 0), u16le data 2, u16le data 4⟩

def WaveformHeader.HasGap (h : WaveformHeader) : Bool := decide (h.Status % 2 = 1)

def WaveformHeader.HasPacerDetected (h : WaveformHeader) : Bool :=
  decide (h.Status / 4 % 2 = 1)

def WaveformHeader.HasLeadOff (h : WaveformHeader) : Bool :=
  decide (h.Status / 8 % 2 = 1)

structure WaveformData where
  Header : WaveformHeader
  Samples : List Int
  deriving DecidableEq, Repr

/-- The sample loop: `ActLen` 16-bit little-endian samples from offset 6. -/
def readSamples (data : Bytes) (count : Nat) : List Int :=
  (List.range count).map fun i => toInt16 (u16le data (6 + 2 * i))

/-- `WaveformData.UnmarshalBinary`.  Go's `make([]int16, sampleCount)`
panics when `sampleCount` is negative. -/
def WaveformData.UnmarshalBinary (data : Bytes) : GoExc WaveformData :=
  if data.length < WaveformHeader.size then .err .invalidDataLength
  else
    match WaveformHeader.UnmarshalBinary (data.take 6) with
    | .err e => .err e
    | .panic => .panic
    | .ok h =>
      if (data.length : Int) < 6 + h.ActLen * 2 then .err .invalidDataLength
      else if h.ActLen < 0 then .panic
      else .ok ⟨h, readSamples data h.ActLen.toNat⟩

structure SampleJSON where
  Index : Nat
  RawValue : Int
  PhysicalValue : Option ℚ
  IsCtl : Bool
  deriving DecidableEq, Repr

structure WaveformJSON where
  SubrecordType : Int
  Header : WaveformHeader
  HasGap : Bool
  HasPacerDetected : Bool
  HasLeadOff : Bool
  Samples : List SampleJSON
  SamplingRate : Nat
  TotalSamples : Nat
  deriving DecidableEq, Repr

/-- `WaveformParser.convertToJSON` (per-sample timestamps and unit strings
not modelled). -/
def convertToJSON (subrecordType : Int) (h : WaveformHeader) (samples : List Int) :
    WaveformJSON :=
  { SubrecordType := subrecordType
    Header := h
    HasGap := h.HasGap
    HasPacerDetected := h.HasPacerDetected
    HasLeadOff := h.HasLeadOff
    Samples := samples.enum.map fun p =>
      ⟨p.1, p.2, ConvertSampleToPhysicalValue p.2 subrecordType, IsControlCode p.2⟩
    SamplingRate := GetSamplingRate subrecordType
    TotalSamples := samples.length }

/-- `WaveformParser.ParseWaveformData` (the parser's `subrecordType` field
is the first argument).  Go's `make([]int16, header.ActLen)` panics when
`ActLen` is negative. -/
def ParseWaveformData (subrecordType : Int) (data : Bytes) : GoExc WaveformJSON :=
  if data.length < 6 then .err .dataTooShort
  else
    match WaveformHeader.UnmarshalBinary (data.take 6) with
    | .err _ => .err .headerParse
    | .panic => .panic
    | .ok header =>
      if (data.length : Int) < 6 + header.ActLen * 2 then .err .lengthMismatch
      else if header.ActLen < 0 then .panic
      else .ok (convertToJSON subrecordType header (readSamples data header.ActLen.toNat))

/-- `ValidateWaveformData`. -/
def ValidateWaveformData (data : Bytes) : GoExc Unit :=
  if data.length < 6 then .err .dataTooShort
  else
    match WaveformHeader.UnmarshalBinary (data.take 6) with
    | .err _ => .err .headerParse
    | .panic => .panic
    | .ok header =>
      if (data.length : Int) < 6 + header.ActLen * 2 then .err .lengthMismatch
      else if header.ActLen < 0 then .err .invalidActLen
      else .ok ()

/-- The `ActLen` value the 6-byte waveform sub-header of `data` declares. -/
def declaredActLen (data : Bytes) : Int := toInt16 (u16le data 0)

/-! ## Subrecord descriptors and the Datex-Ohmeda record header -/

def DRI_EOL_SUBR_LIST : Nat := 255

def DRI_MT_PHDB : Int := 0
def DRI_MT_WAVE : Int := 1
def DRI_MT_ALARM : Int := 4
def DRI_MT_NETWORK : Int := 5
def DRI_MT_FO : Int := 8

def DRI_PH_DISPL : Nat := 16
def DRI_PH_10S_TREND : Nat := 17
def DRI_PH_60S_TREND : Nat := 18
def DRI_PH_AUX_INFO : Nat := 19

structure SrDesc where
  SrOffset : Int
  SrType : Nat
  deriving DecidableEq, Repr

def SrDesc.size : Nat := 3

/-- `SrDesc.MarshalBinary`. -/
def SrDesc.MarshalBinary (s : SrDesc) : Bytes :=
  [u16ofInt s.SrOffset % 256, u16ofInt s.SrOffset / 256 % 256, s.SrType]

/-- `SrDesc.UnmarshalBinary`. -/
def SrDesc.UnmarshalBinary (data : Bytes) : GoExc SrDesc :=
  if data.length < SrDesc.size then .err .invalidDataLength
  else .ok ⟨toInt16 (u16le data 0), byteAt data 2⟩

def SrDesc.IsEndOfList (s : SrDesc) : Bool := decide (s.SrType = DRI_EOL_SUBR_LIST)

def SrDesc.IsValid (s : SrDesc) : Bool := decide (s.SrType ≠ DRI_EOL_SUBR_LIST)

structure DatexHeader where
  RLen : Int
  RNbr : Nat
  DriLevel : Nat
  PlugID : Nat
  RTime : Nat
  NSubnet : Nat
  Reserved2 : Nat
  Reserved3 : Nat
  RMainType : Int
  SrDescs : List SrDesc
  deriving DecidableEq, Repr

/-- `DatexHeader.Size`: `2+1+1+2+4+1+1+2+2+8*3` — 40 bytes (the source
comment says "32 bytes total" but the computation yields 40). -/
def DatexHeader.size : Nat := 2 + 1 + 1 + 2 + 4 + 1 + 1 + 2 + 2 + 8 * 3

/-- `DatexHeader.MarshalBinary`: the sequential little-endian writes of the
fixed fields, then the eight `SrDesc.MarshalBinary` blocks. -/
def DatexHeader.MarshalBinary (h : DatexHeader) : Bytes :=
  [u16ofInt h.RLen % 256, u16ofInt h.RLen / 256 % 256,
   h.RNbr, h.DriLevel,
   h.PlugID % 256, h.PlugID / 256 % 256,
   h.RTime % 256, h.RTime / 256 % 256, h.RTime / 65536 % 256, h.RTime / 16777216 % 256,
   h.NSubnet, h.Reserved2,
   h.Reserved3 % 256, h.Reserved3 / 256 % 256,
   u16ofInt h.RMainType % 256, u16ofInt h.RMainType / 256 % 256] ++
  (h.SrDescs.map SrDesc.MarshalBinary).flatten

/-- The descriptor loop of `DatexHeader.UnmarshalBinary`: `count` calls of
`SrDesc.UnmarshalBinary` on `data[off:]`, advancing `off` by 3, with the
source's early return on error. -/
def readSrDescs (data : Bytes) : Nat → Nat → GoExc (List SrDesc)
  | _, 0 => .ok []
  | off, n + 1 =>
    match SrDesc.UnmarshalBinary (data.drop off) with
    | .err e => .err e
    | .panic => .panic
    | .ok s =>
      match readSrDescs data (off + 3) n with
      | .ok rest => .ok (s :: rest)
      | .err e => .err e
      | .panic => .panic

/-- `DatexHeader.UnmarshalBinary`. -/
def DatexHeader.UnmarshalBinary (data : Bytes) : GoExc DatexHeader :=
  if data.length < DatexHeader.size then .err .invalidDataLength
  else
    match readSrDescs data 16 8 with
    | .err e => .err e
    | .panic => .panic
    | .ok sds =>
      .ok ⟨toInt16 (u16le data 0), byteAt data 2, byteAt data 3, u16le data 4,
           u32le data 6, byteAt data 10, byteAt data 11, u16le data 12,
           toInt16 (u16le data 14), sds⟩

/-- The pure per-slot reads of the descriptor table, used to state what
the decode loop produces. -/
def srDescsSpec (data : Bytes) : Nat → Nat → List SrDesc
  | _, 0 => []
  | off, n + 1 => ⟨toInt16 (u16le data off), byteAt data (off + 2)⟩ ::
      srDescsSpec data (off + 3) n

/-! ## Physiological database record (parse_trend.go) -/

structure BasicPhysiologicalData where
  Data : Bytes
  deriving DecidableEq, Repr

def BasicPhysiologicalData.sizeOf (b : BasicPhysiologicalData) : Nat := b.Data.length

/-- `BasicPhysiologicalData.UnmarshalBinary`: copies every byte it is
given (`b.Data = make(...); copy(b.Data, data)`), never fails. -/
def BasicPhysiologicalData.UnmarshalBinary (data : Bytes) :
    GoExc BasicPhysiologicalData :=
  .ok ⟨data⟩

structure Extended1PhysiologicalData where
  Data : Bytes
  deriving DecidableEq, Repr

structure Extended2PhysiologicalData where
  Data : Bytes
  deriving DecidableEq, Repr

structure Extended3PhysiologicalData where
  Data : Bytes
  deriving DecidableEq, Repr

/-- The `physdata` union: four mutually exclusive optional pointers. -/
structure PhysiologicalDataUnion where
  Basic : Option BasicPhysiologicalData := none
  Ext1 : Option Extended1PhysiologicalData := none
  Ext2 : Option Extended2PhysiologicalData := none
  Ext3 : Option Extended3PhysiologicalData := none
  deriving DecidableEq, Repr

structure PhysiologicalDatabaseRecord where
  Time : Nat
  PhysData : PhysiologicalDataUnion
  Marker : Nat
  Reserved : Nat
  ClDriLvlSubt : Nat
  deriving DecidableEq, Repr

/-- `PhysiologicalDatabaseRecord.UnmarshalBinary`: reads `Time`, hands the
whole remainder to the Basic-class decode, then advances `offset` by
`Basic.Size()` and reads `Marker`, `Reserved` and `ClDriLvlSubt` by direct
indexing (`data[offset]` panics when `offset` is out of range, and
`binary.LittleEndian.Uint16(data[offset:])` panics when fewer than two
bytes remain). -/
def PhysiologicalDatabaseRecord.UnmarshalBinary (data : Bytes) :
    GoExc PhysiologicalDatabaseRecord :=
  if data.length < 8 then .err .invalidDataLength
  else
    match BasicPhysiologicalData.UnmarshalBinary (data.drop 4) with
    | .err e => .err e
    | .panic => .panic
    | .ok basic =>
      let off := 4 + basic.sizeOf
      match data.get? off, data.get? (off + 1), data.get? (off + 2),
          data.get? (off + 3) with
      | some marker, some rsv, some c0, some c1 =>
        .ok ⟨u32le data 0, { Basic := some basic }, marker, rsv, c0 + 256 * c1⟩
      | _, _, _, _ => .panic

/-! ## Auxiliary physiological information (parse_trend.go) -/

structure AuxiliaryPhysiologicalInfo where
  NibpTime : Nat
  Reserved1 : Int
  CoTime : Nat
  PcwpTime : Nat
  PatBsa : Int
  Reserved : Bytes
  deriving DecidableEq, Repr

def AuxiliaryPhysiologicalInfo.size : Nat := 4 + 2 + 4 + 4 + 2 + 98

/-- `AuxiliaryPhysiologicalInfo.UnmarshalBinary`. -/
def AuxiliaryPhysiologicalInfo.UnmarshalBinary (data : Bytes) :
    GoExc AuxiliaryPhysiologicalInfo :=
  if data.length < AuxiliaryPhysiologicalInfo.size then .err .invalidDataLength
  else
    .ok ⟨u32le data 0, toInt16 (u16le data 4), u32le data 6, u32le data 10,
         toInt16 (u16le data 14), (data.drop 16).take 98⟩

/-! ## Alarm status structures (parse_trend.go) -/

def DRI_AL_STATUS : Nat := 1

def DRI_PR0 : Nat := 0
def DRI_PR1 : Nat := 1
def DRI_PR2 : Nat := 2
def DRI_PR3 : Nat := 3

structure AlarmDisplay where
  Text : Bytes
  TextChanged : Bool
  Color : Nat
  ColorChanged : Bool
  Reserved : List Int
  deriving DecidableEq, Repr

def AlarmDisplay.size : Nat := 80 + 1 + 1 + 1 + 6 * 2  -- 95 bytes

/-- `AlarmDisplay.UnmarshalBinary`. -/
def AlarmDisplay.UnmarshalBinary (data : Bytes) : GoExc AlarmDisplay :=
  if data.length < AlarmDisplay.size then .err .invalidDataLength
  else
    .ok ⟨data.take 80, decide (byteAt data 80 ≠ 0), byteAt data 81,
         decide (byteAt data 82 ≠ 0),
         (List.range 6).map fun i => toInt16 (u16le data (83 + 2 * i))⟩

/-- `AlarmDisplay.IsActiveAlarm`: priority 1 or higher. -/
def AlarmDisplay.IsActiveAlarm (a : AlarmDisplay) : Bool := decide (DRI_PR1 ≤ a.Color)

structure AlarmStatusMessage where
  Reserved : Int
  SoundOnOff : Bool
  Reserved2 : Int
  Reserved3 : Int
  SilenceInfo : Nat
  AlDisp : List AlarmDisplay
  Reserved4 : List Int
  deriving DecidableEq, Repr

/-- `AlarmStatusMessage.Size`: the source computes `2+1+2+2+1+5*93+5*2`
(483), although the display stride its decode loop actually uses is
`AlarmDisplay.Size()` = 95. -/
def AlarmStatusMessage.size : Nat := 2 + 1 + 2 + 2 + 1 + 5 * 93 + 5 * 2

/-- The display loop of `AlarmStatusMessage.UnmarshalBinary`: `count`
calls of `AlarmDisplay.UnmarshalBinary` on `data[off:]`, advancing `off`
by `AlarmDisplay.Size()` (95). -/
def readAlarmDisplays (data : Bytes) : Nat → Nat → GoExc (List AlarmDisplay)
  | _, 0 => .ok []
  | off, n + 1 =>
    match AlarmDisplay.UnmarshalBinary (data.drop off) with
    | .err e => .err e
    | .panic => .panic
    | .ok d =>
      match readAlarmDisplays data (off + 95) n with
      | .ok rest => .ok (d :: rest)
      | .err e => .err e
      | .panic => .panic

/-- `binary.LittleEndian.Uint16(data[off:])` where the caller has NOT
ensured two bytes remain: panics out of range otherwise. -/
def readU16Checked (data : Bytes) (off : Nat) : GoExc Nat :=
  match data.get? off, data.get? (off + 1) with
  | some b0, some b1 => .ok (b0 + 256 * b1)
  | _, _ => .panic

/-- The `Reserved4` loop: `count` 16-bit reads from `off` on, each of
which may run past the end of the buffer. -/
def readReserved4 (data : Bytes) : Nat → Nat → GoExc (List Int)
  | _, 0 => .ok []
  | off, n + 1 =>
    match readU16Checked data off with
    | .err e => .err e
    | .panic => .panic
    | .ok u =>
      match readReserved4 data (off + 2) n with
      | .ok rest => .ok (toInt16 u :: rest)
      | .err e => .err e
      | .panic => .panic

/-- `AlarmStatusMessage.UnmarshalBinary`.  The length check uses
`Size()` = 483, but the five 95-byte displays end at offset 483 and the
`Reserved4` words are then read from offsets 483..493, which the check
does not cover. -/
def AlarmStatusMessage.UnmarshalBinary (data : Bytes) : GoExc AlarmStatusMessage :=
  if data.length < AlarmStatusMessage.size then .err .invalidDataLength
  else
    match readAlarmDisplays data 8 5 with
    | .err e => .err e
    | .panic => .panic
    | .ok ds =>
      match readReserved4 data 483 5 with
      | .err e => .err e
      | .panic => .panic
      | .ok r4 =>
        .ok ⟨toInt16 (u16le data 0), decide (byteAt data 2 ≠ 0), toInt16 (u16le data 3),
             toInt16 (u16le data 5), byteAt data 7, ds, r4⟩

/-- `AlarmStatusMessage.GetActiveAlarmCount`. -/
def AlarmStatusMessage.GetActiveAlarmCount (a : AlarmStatusMessage) : Nat :=
  (a.AlDisp.filter AlarmDisplay.IsActiveAlarm).length

/-- One step of the `GetHighestPriorityAlarm` scan: keep the current
`(highestPriority, highestAlarm)` unless this slot is active with a
strictly smaller color. -/
def hpStep (st : Nat × Option AlarmDisplay) (d : AlarmDisplay) :
    Nat × Option AlarmDisplay :=
  if d.IsActiveAlarm ∧ d.Color < st.1 then (d.Color, some d) else st

/-- `AlarmStatusMessage.GetHighestPriorityAlarm`: scan the five slots in
order starting from `highestPriority = 255`, `highestAlarm = nil`. -/
def AlarmStatusMessage.GetHighestPriorityAlarm (a : AlarmStatusMessage) :
    Option AlarmDisplay :=
  (a.AlDisp.foldl hpStep (255, none)).2

/-- `AlarmSubrecords` union. -/
structure AlarmSubrecords where
  AlarmMsg : Option AlarmStatusMessage
  deriving DecidableEq, Repr

/-- `AlarmSubrecords.UnmarshalBinary`. -/
def AlarmSubrecords.UnmarshalBinary (data : Bytes) : GoExc AlarmSubrecords :=
  if data.length = 0 then .ok ⟨none⟩
  else
    match AlarmStatusMessage.UnmarshalBinary data with
    | .err e => .err e
    | .panic => .panic
    | .ok m => .ok ⟨some m⟩

/-! ## Trend parser (parse_trend.go) -/

inductive SubrecordPayload
  | ph (r : PhysiologicalDatabaseRecord)
  | aux (a : AuxiliaryPhysiologicalInfo)
  /-- the raw-data fallback for unknown types: the bytes and their count -/
  | raw (bytes : Bytes) (size : Nat)
  deriving DecidableEq, Repr

structure SubrecordJSON where
  Index : Nat
  Offset : Int
  SrType : Nat
  IsValid : Bool
  IsEndOfList : Bool
  Data : Option SubrecordPayload
  deriving DecidableEq, Repr

/-- `TrendParser.parsePhysiologicalDatabaseRecord`. -/
def TrendParser.parsePhysiologicalDatabaseRecord (errs : List Diag) (data : Bytes) :
    GoExc (Option SubrecordPayload × List Diag) :=
  if data.length < 8 then .ok (none, errs ++ [.phRecordTooShort])
  else
    match PhysiologicalDatabaseRecord.UnmarshalBinary data with
    | .panic => .panic
    | .err _ => .ok (none, errs ++ [.phRecordParse])
    | .ok r => .ok (some (.ph r), errs)

/-- `TrendParser.parseAuxiliaryPhysiologicalInfo`. -/
def TrendParser.parseAuxiliaryPhysiologicalInfo (errs : List Diag) (data : Bytes) :
    GoExc (Option SubrecordPayload × List Diag) :=
  if data.length < 114 then .ok (none, errs ++ [.auxTooShort])
  else
    match AuxiliaryPhysiologicalInfo.UnmarshalBinary data with
    | .panic => .panic
    | .err _ => .ok (none, errs ++ [.auxParse])
    | .ok a => .ok (some (.aux a), errs)

/-- `TrendParser.parseSubrecordData`: dispatch on the subrecord type. -/
def TrendParser.parseSubrecordData (errs : List Diag) (t : Nat) (data : Bytes) :
    GoExc (Option SubrecordPayload × List Diag) :=
  if t = DRI_PH_DISPL ∨ t = DRI_PH_10S_TREND ∨ t = DRI_PH_60S_TREND then
    TrendParser.parsePhysiologicalDatabaseRecord errs data
  else if t = DRI_PH_AUX_INFO then
    TrendParser.parseAuxiliaryPhysiologicalInfo errs data
  else .ok (some (.raw data data.length), errs)

/-- The slot loop of `TrendParser.parseSubrecords`, one iteration per
descriptor, carrying the slot index.  The source guards the body decode
with `int(srDesc.SrOffset) < len(record.Data)` only — a negative offset
passes that test and `record.Data[srDesc.SrOffset:]` then panics. -/
def TrendParser.parseSubrecordsLoop (rdata : Bytes) :
    List SrDesc → Nat → List Diag → GoExc (List SubrecordJSON × List Diag)
  | [], _, errs => .ok ([], errs)
  | s :: rest, i, errs =>
    let base : SubrecordJSON :=
      ⟨i, s.SrOffset, s.SrType, s.IsValid, s.IsEndOfList, none⟩
    if s.IsValid ∧ s.SrOffset < (rdata.length : Int) then
      if s.SrOffset < 0 then .panic
      else
        match TrendParser.parseSubrecordData errs s.SrType (rdata.drop s.SrOffset.toNat) with
        | .panic => .panic
        | .err e => .err e
        | .ok (payload, errs1) =>
          match TrendParser.parseSubrecordsLoop rdata rest (i + 1) errs1 with
          | .ok (subs, errs2) => .ok ({ base with Data := payload } :: subs, errs2)
          | .err e => .err e
          | .panic => .panic
    else
      match TrendParser.parseSubrecordsLoop rdata rest (i + 1) errs with
      | .ok (subs, errs2) => .ok (base :: subs, errs2)
      | .err e => .err e
      | .panic => .panic

/-- `TrendParser.parseSubrecords` over the 8 descriptors of the header. -/
def TrendParser.parseSubrecords (header : DatexHeader) (rdata : Bytes)
    (errs : List Diag) : GoExc (List SubrecordJSON × List Diag) :=
  TrendParser.parseSubrecordsLoop rdata header.SrDescs 0 errs

structure DatexRecord where
  Header : DatexHeader
  Data : Bytes
  deriving DecidableEq, Repr

/-- Modelled from the spec: `DatexRecord.UnmarshalBinary` is not under
src/ (only its callers are).  The spec says a `DatexRecord` owns a
`DatexHeader` and the raw body byte range that follows it, and that a
record whose `RLen` is below 32 or beyond the buffer is rejected. -/
def DatexRecord.UnmarshalBinary (data : Bytes) : GoExc DatexRecord :=
  match DatexHeader.UnmarshalBinary data with
  | .err e => .err e
  | .panic => .panic
  | .ok h =>
    if h.RLen < 32 ∨ (data.length : Int) < h.RLen then .err .invalidRecordLength
    else .ok ⟨h, data.drop DatexHeader.size⟩

/-- Modelled from the spec: `DatexHeader.IsValid` (the JSON `is_valid`
flag) is not under src/; the spec constrains `RLen` to at least 32, the
DRI level to 2..12 and the main type to the enumerated set {0,1,4,5,8}. -/
def DatexHeader.IsValidHeader (h : DatexHeader) : Bool :=
  decide (32 ≤ h.RLen) && decide (2 ≤ h.DriLevel ∧ h.DriLevel ≤ 12) &&
    decide (h.RMainType = DRI_MT_PHDB ∨ h.RMainType = DRI_MT_WAVE ∨
      h.RMainType = DRI_MT_ALARM ∨ h.RMainType = DRI_MT_NETWORK ∨
      h.RMainType = DRI_MT_FO)

structure PhysiologicalSubrecords where
  Records : List PhysiologicalDatabaseRecord
  deriving DecidableEq, Repr

/-- Modelled from the spec: `PhysiologicalSubrecords.UnmarshalBinary` is
not under src/ (only its caller is).  The spec's physiological decoder
decodes a physiological database record from the PHDB record body. -/
def PhysiologicalSubrecords.UnmarshalBinary (data : Bytes) :
    GoExc PhysiologicalSubrecords :=
  match PhysiologicalDatabaseRecord.UnmarshalBinary data with
  | .err e => .err e
  | .panic => .panic
  | .ok r => .ok ⟨[r]⟩

structure TrendJSON where
  UnixTimestamp : Nat
  RecordNumber : Nat
  DriLevel : Nat
  PlugID : Nat
  MainType : Int
  Subrecords : List SubrecordJSON
  Groups : List PhysiologicalDatabaseRecord
  IsValid : Bool
  ParseErrors : List Diag
  deriving DecidableEq, Repr

/-- `TrendParser.parsePhysiologicalData` (the decoded records become the
`groups` entries). -/
def TrendParser.parsePhysiologicalData (record : DatexRecord) (errs : List Diag) :
    GoExc (List PhysiologicalDatabaseRecord × List Diag) :=
  match PhysiologicalSubrecords.UnmarshalBinary record.Data with
  | .panic => .panic
  | .err _ => .ok ([], errs ++ [.physSubrecordsParse])
  | .ok ph => .ok (ph.Records, errs)

/-- `TrendParser.ParseTrendData`.  The parser's error list is reset at
entry (`p.errors = make([]string, 0)`); the second component is the
parser's error state when the call returns. -/
def TrendParser.ParseTrendData (data : Bytes) : GoExc TrendJSON × List Diag :=
  let errs : List Diag := []
  if data.length < 32 then (.err .dataTooShort, errs)
  else
    match DatexRecord.UnmarshalBinary data with
    | .err e => (.err e, errs ++ [.recordParse])
    | .panic => (.panic, [])
    | .ok record =>
      match TrendParser.parseSubrecords record.Header record.Data errs with
      | .panic => (.panic, [])
      | .err e => (.err e, errs)
      | .ok (subs, errs1) =>
        match (if record.Header.RMainType = DRI_MT_PHDB then
            TrendParser.parsePhysiologicalData record errs1
          else .ok ([], errs1)) with
        | .panic => (.panic, [])
        | .err e => (.err e, errs1)
        | .ok (groups, errs2) =>
          (.ok { UnixTimestamp := record.Header.RTime
                 RecordNumber := record.Header.RNbr
                 DriLevel := record.Header.DriLevel
                 PlugID := record.Header.PlugID
                 MainType := record.Header.RMainType
                 Subrecords := subs
                 Groups := groups
                 IsValid := record.Header.IsValidHeader
                 ParseErrors := errs2 }, errs2)

/-- The scan loop of `TrendParser.ParseMultipleTrends`: read a 2-byte
length, stop (without any diagnostic) when it is zero or runs past the
buffer, otherwise decode that slice and advance. -/
def TrendParser.ParseMultipleTrendsLoop (data : Bytes) (offset : Nat)
    (trends : List TrendJSON) (errs : List Diag) : GoExc (List TrendJSON × List Diag) :=
  if _h1 : data.length ≤ offset then .ok (trends, errs)
  else if _h2 : data.length < offset + 2 then .ok (trends, errs)
  else
    if _h3 : u16le data offset = 0 ∨ data.length < offset + u16le data offset then
      .ok (trends, errs)
    else
      match TrendParser.ParseTrendData ((data.drop offset).take (u16le data offset)) with
      | (.ok t, inner) =>
        TrendParser.ParseMultipleTrendsLoop data (offset + u16le data offset)
          (trends ++ [t]) inner
      | (.err _, inner) =>
        TrendParser.ParseMultipleTrendsLoop data (offset + u16le data offset)
          trends (inner ++ [.trendFailedAt offset])
      | (.panic, _) => .panic
  termination_by data.length - offset
  decreasing_by all_goals omega

/-- `TrendParser.ParseMultipleTrends` on a fresh parser. -/
def TrendParser.ParseMultipleTrends (data : Bytes) : GoExc (List TrendJSON × List Diag) :=
  TrendParser.ParseMultipleTrendsLoop data 0 [] []

/-! ## Alarm parser (parse_alarm.go) -/

structure AlarmSubrecordJSON where
  Index : Nat
  Offset : Int
  SrType : Nat
  IsValid : Bool
  IsEndOfList : Bool
  Data : Option AlarmStatusMessage
  deriving DecidableEq, Repr

structure AlarmJSON where
  UnixTimestamp : Nat
  RecordNumber : Nat
  DriLevel : Nat
  PlugID : Nat
  MainType : Int
  Subrecords : List AlarmSubrecordJSON
  AlarmData : Option AlarmSubrecords
  IsValid : Bool
  ParseErrors : List Diag
  deriving DecidableEq, Repr

/-- `AlarmParser.parseAlarmStatusData`. -/
def AlarmParser.parseAlarmStatusData (errs : List Diag) (data : Bytes) :
    GoExc (Option AlarmStatusMessage × List Diag) :=
  match AlarmStatusMessage.UnmarshalBinary data with
  | .panic => .panic
  | .err _ => .ok (none, errs ++ [.alarmStatusParse])
  | .ok m => .ok (some m, errs)

/-- `AlarmParser.parseSubrecordData`. -/
def AlarmParser.parseSubrecordData (errs : List Diag) (t : Nat) (data : Bytes) :
    GoExc (Option AlarmStatusMessage × List Diag) :=
  if t = DRI_AL_STATUS then AlarmParser.parseAlarmStatusData errs data
  else .ok (none, errs ++ [.unknownAlarmSubrType])

/-- The slot loop of `AlarmParser.parseAlarmSubrecords`.  Unlike the
trend version, the body decode is guarded by
`srDesc.SrOffset >= 0 && int(srDesc.SrOffset) < len(data)`. -/
def AlarmParser.parseAlarmSubrecordsLoop (data : Bytes) :
    List SrDesc → Nat → List Diag → GoExc (List AlarmSubrecordJSON × List Diag)
  | [], _, errs => .ok ([], errs)
  | s :: rest, i, errs =>
    let base : AlarmSubrecordJSON :=
      ⟨i, s.SrOffset, s.SrType, s.IsValid, s.IsEndOfList, none⟩
    if s.IsValid ∧ 0 ≤ s.SrOffset ∧ s.SrOffset < (data.length : Int) then
      match AlarmParser.parseSubrecordData errs s.SrType (data.drop s.SrOffset.toNat) with
      | .panic => .panic
      | .err e => .err e
      | .ok (payload, errs1) =>
        match AlarmParser.parseAlarmSubrecordsLoop data rest (i + 1) errs1 with
        | .ok (subs, errs2) => .ok ({ base with Data := payload } :: subs, errs2)
        | .err e => .err e
        | .panic => .panic
    else
      match AlarmParser.parseAlarmSubrecordsLoop data rest (i + 1) errs with
      | .ok (subs, errs2) => .ok (base :: subs, errs2)
      | .err e => .err e
      | .panic => .panic

/-- `AlarmParser.parseAlarmSubrecords`. -/
def AlarmParser.parseAlarmSubrecords (header : DatexHeader) (data : Bytes)
    (errs : List Diag) : GoExc (List AlarmSubrecordJSON × List Diag) :=
  AlarmParser.parseAlarmSubrecordsLoop data header.SrDescs 0 errs

/-- The descriptor scan of the (lower-case) `AlarmParser.parseAlarmData`:
find the first valid `DRI_AL_STATUS` descriptor, decode the alarm
subrecords at its offset when the offset is in range, and stop. -/
def AlarmParser.parseAlarmDataLoop (data : Bytes) (errs : List Diag) :
    List SrDesc → GoExc (Option AlarmSubrecords) × List Diag
  | [] => (.ok none, errs)
  | s :: rest =>
    if s.IsValid ∧ s.SrType = DRI_AL_STATUS then
      if 0 ≤ s.SrOffset ∧ s.SrOffset < (data.length : Int) then
        match AlarmSubrecords.UnmarshalBinary (data.drop s.SrOffset.toNat) with
        | .panic => (.panic, [])
        | .err e => (.err e, errs ++ [.alarmSubrecordsParse])
        | .ok a => (.ok (some a), errs)
      else (.ok (some ⟨none⟩), errs)
    else AlarmParser.parseAlarmDataLoop data errs rest

/-- `AlarmParser.ParseAlarmData`.  `p.errors` is NOT reset here; the
argument `errs` is the parser's error state at entry and the second
component its state at return. -/
def AlarmParser.ParseAlarmData (errs : List Diag) (data : Bytes) :
    GoExc AlarmJSON × List Diag :=
  if data.length < 32 then (.err .invalidDataLength, errs ++ [.dataTooShortAlarm])
  else
    match DatexHeader.UnmarshalBinary (data.take 32) with
    | .err e => (.err e, errs ++ [.headerParseFailed])
    | .panic => (.panic, [])
    | .ok header =>
      if header.RMainType ≠ DRI_MT_ALARM then
        (.err .invalidRecordType, errs ++ [.typeMismatch])
      else
        match AlarmParser.parseAlarmSubrecords header data errs with
        | .panic => (.panic, [])
        | .err e => (.err e, errs)
        | .ok (subs, errs1) =>
          match AlarmParser.parseAlarmDataLoop data errs1 header.SrDescs with
          | (.panic, _) => (.panic, [])
          | (.err _, errs2) =>
            (.ok { UnixTimestamp := header.RTime
                   RecordNumber := header.RNbr
                   DriLevel := header.DriLevel
                   PlugID := header.PlugID
                   MainType := header.RMainType
                   Subrecords := subs
                   AlarmData := none
                   IsValid := false
                   ParseErrors := errs2 ++ [.alarmDataFailed] },
             errs2 ++ [.alarmDataFailed])
          | (.ok found, errs2) =>
            (.ok { UnixTimestamp := header.RTime
                   RecordNumber := header.RNbr
                   DriLevel := header.DriLevel
                   PlugID := header.PlugID
                   MainType := header.RMainType
                   Subrecords := subs
                   AlarmData := found
                   IsValid := true
                   ParseErrors := errs2 },
             errs2)

/-- The scan loop of `AlarmParser.ParseMultipleAlarms`: decode a header
from the next 32 bytes to learn `RLen`, stop with a diagnostic when that
fails or when `RLen` is non-positive or runs past the buffer, otherwise
decode the record slice and advance. -/
def AlarmParser.ParseMultipleAlarmsLoop (data : Bytes) (offset : Nat)
    (alarms : List AlarmJSON) (errs : List Diag) : GoExc (List AlarmJSON × List Diag) :=
  if _h1 : data.length ≤ offset then .ok (alarms, errs)
  else if _h2 : (data.drop offset).length < 32 then .ok (alarms, errs)
  else
    match DatexHeader.UnmarshalBinary ((data.drop offset).take 32) with
    | .err _ => .ok (alarms, errs ++ [.headerFailedAt offset])
    | .panic => .panic
    | .ok header =>
      if _h4 : header.RLen ≤ 0 ∨ (data.length : Int) < (offset : Int) + header.RLen then
        .ok (alarms, errs ++ [.invalidLenAt offset])
      else
        match AlarmParser.ParseAlarmData errs ((data.drop offset).take header.RLen.toNat) with
        | (.ok a, inner) =>
          AlarmParser.ParseMultipleAlarmsLoop data (offset + header.RLen.toNat)
            (alarms ++ [a]) inner
        | (.err _, inner) =>
          AlarmParser.ParseMultipleAlarmsLoop data (offset + header.RLen.toNat)
            alarms (inner ++ [.alarmFailedAt offset])
        | (.panic, _) => .panic
  termination_by data.length - offset
  decreasing_by all_goals omega

/-- `AlarmParser.ParseMultipleAlarms` on a fresh parser. -/
def AlarmParser.ParseMultipleAlarms (data : Bytes) : GoExc (List AlarmJSON × List Diag) :=
  AlarmParser.ParseMultipleAlarmsLoop data 0 [] []

/-! ## Helper lemmas -/

theorem byteAt_drop (data : Bytes) (n i : Nat) :
    byteAt (data.drop n) i = byteAt data (n + i) := by
  simp [byteAt, List.getD_eq_getElem?_getD, List.getElem?_drop]

theorem byteAt_take (data : Bytes) (n i : Nat) (h : i < n) :
    byteAt (data.take n) i = byteAt data i := by
  simp [byteAt, List.getD_eq_getElem?_getD, List.getElem?_take, h]

theorem u16le_drop (data : Bytes) (n i : Nat) :
    u16le (data.drop n) i = u16le data (n + i) := by
  simp [u16le, byteAt_drop, Nat.add_assoc]

theorem u16le_take (data : Bytes) (n i : Nat) (h : i + 1 < n) :
    u16le (data.take n) i = u16le data i := by
  unfold u16le
  rw [byteAt_take data n i (by omega), byteAt_take data n (i + 1) h]

/-- The 6-byte sub-header decode of the waveform parsers on `data[:6]`. -/
theorem waveHeader_take6 (data : Bytes) (h : 6 ≤ data.length) :
    WaveformHeader.UnmarshalBinary (data.take 6) =
      .ok ⟨declaredActLen data, u16le data 2, u16le data 4⟩ := by
  unfold WaveformHeader.UnmarshalBinary declaredActLen
  have hlen : (data.take 6).length = 6 := by simp; omega
  rw [hlen]
  have h0 : u16le (data.take 6) 0 = u16le data 0 := u16le_take data 6 0 (by omega)
  have h2 : u16le (data.take 6) 2 = u16le data 2 := u16le_take data 6 2 (by omega)
  have h4 : u16le (data.take 6) 4 = u16le data 4 := u16le_take data 6 4 (by omega)
  simp [WaveformHeader.size, h0, h2, h4]

/-! ## Claim theorems -/

/-- C6: for every 16-bit sample `s` and every waveform subrecord type, a
sample at or below -32000 converts to NaN, and any other sample converts
to `s` divided by the type-specific divisor: 100 for the invasive
pressure, plethysmograph and gas (CO2/O2/N2O/AA) types, 1 for 12-lead
ECG and for all other types. -/
theorem C6_sample_conversion (s st : Int) (hlo : -32768 ≤ s) (hhi : s ≤ 32767) :
    (s ≤ -32000 → ConvertSampleToPhysicalValue s st = none) ∧
    (-32000 < s → ConvertSampleToPhysicalValue s st = some ((s : ℚ) / specDivisor st)) := by
  constructor
  · intro h
    simp [ConvertSampleToPhysicalValue, IsControlCode, h]
  · intro h
    have hc : IsControlCode s = false := by
      simp only [IsControlCode, decide_eq_false_iff_not]
      omega
    unfold ConvertSampleToPhysicalValue specDivisor
    unfold DRI_WF_ECG12 DRI_WF_INVP5 DRI_WF_INVP6 DRI_WF_INVP7 DRI_WF_INVP8
    unfold DRI_WF_PLETH DRI_WF_PLETH_2 DRI_WF_CO2 DRI_WF_O2 DRI_WF_N2O DRI_WF_AA
    rw [hc]
    simp only [Bool.false_eq_true, if_false]
    by_cases h1 : st = 22
    · subst h1
      norm_num
    · rw [if_neg h1]
      by_cases h2 : st = 16 ∨ st = 17 ∨ st = 36 ∨ st = 37
      · rw [if_pos h2, if_pos (by tauto)]
      · rw [if_neg h2]
        by_cases h3 : st = 8 ∨ st = 38
        · rw [if_pos h3, if_pos (by tauto)]
        · rw [if_neg h3]
          by_cases h4 : st = 9 ∨ st = 10 ∨ st = 11 ∨ st = 12
          · rw [if_pos h4, if_pos (by tauto)]
          · rw [if_neg h4, if_neg (by tauto), div_one]

/-- Witness for C6: the spec's own example, a CO2 sample of 2500
converting to 25.00 %. -/
theorem C6_sample_conversion_witness :
    ConvertSampleToPhysicalValue 2500 DRI_WF_CO2 =
      some ((2500 : ℚ) / specDivisor DRI_WF_CO2) :=
  (C6_sample_conversion 2500 DRI_WF_CO2 (by decide) (by decide)).2 (by decide)

/-- C7: a waveform buffer whose sub-header declares `ActLen = N` but that
holds fewer than `6 + 2N` bytes makes both waveform decoders fail with a
length error and produce no sample array. -/
theorem C7_waveform_short_buffer (st : Int) (data : Bytes) (N : Int)
    (h6 : 6 ≤ data.length) (hN : declaredActLen data = N)
    (hshort : (data.length : Int) < 6 + 2 * N) :
    ParseWaveformData st data = .err .lengthMismatch ∧
    WaveformData.UnmarshalBinary data = .err .invalidDataLength := by
  have hdr := waveHeader_take6 data h6
  constructor
  · unfold ParseWaveformData
    rw [if_neg (by omega), hdr]
    dsimp only
    rw [if_pos (by rw [hN]; omega)]
  · unfold WaveformData.UnmarshalBinary
    rw [if_neg (by simp [WaveformHeader.size]; omega), hdr]
    dsimp only
    rw [if_pos (by rw [hN]; omega)]

/-- Witness for C7 at the concrete buffer `[3,0,0,0,0,0]`: it declares
`ActLen = 3` but holds only 6 of the required 12 bytes. -/
theorem C7_waveform_short_buffer_witness :
    ParseWaveformData DRI_WF_CO2 [3, 0, 0, 0, 0, 0] = .err .lengthMismatch ∧
    WaveformData.UnmarshalBinary [3, 0, 0, 0, 0, 0] = .err .invalidDataLength :=
  C7_waveform_short_buffer DRI_WF_CO2 [3, 0, 0, 0, 0, 0] 3 (by decide) (by decide)
    (by decide)

/-- C10: a waveform buffer whose sub-header declares a negative `ActLen`
passes the declared-length validation of both decoders, which then panic
(Go `make` with a negative length) instead of returning a length error;
only `ValidateWaveformData` rejects the negative `ActLen`, and it does so
after its length comparison. -/
theorem C10_negative_actlen (st : Int) (data : Bytes)
    (h6 : 6 ≤ data.length) (hneg : declaredActLen data < 0) :
    6 + 2 * declaredActLen data ≤ (data.length : Int) ∧
    ParseWaveformData st data = .panic ∧
    WaveformData.UnmarshalBinary data = .panic ∧
    ValidateWaveformData data = .err .invalidActLen := by
  have hdr := waveHeader_take6 data h6
  refine ⟨by omega, ?_, ?_, ?_⟩
  · unfold ParseWaveformData
    rw [if_neg (by omega), hdr]
    dsimp only
    rw [if_neg (by omega), if_pos (by omega)]
  · unfold WaveformData.UnmarshalBinary
    rw [if_neg (by simp [WaveformHeader.size]; omega), hdr]
    dsimp only
    rw [if_neg (by omega), if_pos (by omega)]
  · unfold ValidateWaveformData
    rw [if_neg (by omega), hdr]
    dsimp only
    rw [if_neg (by omega), if_pos (by omega)]

/-- Witness for C10 at the concrete buffer `[255,255,0,0,0,0]`, which
declares `ActLen = -1`. -/
theorem C10_negative_actlen_witness :
    6 + 2 * declaredActLen [255, 255, 0, 0, 0, 0] ≤
        (([255, 255, 0, 0, 0, 0] : Bytes).length : Int) ∧
    ParseWaveformData DRI_WF_CO2 [255, 255, 0, 0, 0, 0] = .panic ∧
    WaveformData.UnmarshalBinary [255, 255, 0, 0, 0, 0] = .panic ∧
    ValidateWaveformData [255, 255, 0, 0, 0, 0] = .err .invalidActLen :=
  C10_negative_actlen DRI_WF_CO2 [255, 255, 0, 0, 0, 0] (by decide) (by decide)

/-- The slot reads of `SrDesc.UnmarshalBinary` on a buffer suffix, with
at least 3 bytes available. -/
theorem SrDesc_unmarshal_drop (data : Bytes) (off : Nat) (h : off + 3 ≤ data.length) :
    SrDesc.UnmarshalBinary (data.drop off) =
      .ok ⟨toInt16 (u16le data off), byteAt data (off + 2)⟩ := by
  unfold SrDesc.UnmarshalBinary
  rw [if_neg (by simp [SrDesc.size]; omega)]
  have h0 : u16le (data.drop off) 0 = u16le data off := by
    rw [u16le_drop data off 0, Nat.add_zero]
  rw [h0, byteAt_drop data off 2]

/-- The descriptor loop succeeds and produces the per-slot reads whenever
the buffer covers all `n` slots. -/
theorem readSrDescs_ok (data : Bytes) :
    ∀ (n off : Nat), off + 3 * n ≤ data.length →
      readSrDescs data off n = .ok (srDescsSpec data off n) := by
  intro n
  induction n with
  | zero => intro off _; rfl
  | succ m ih =>
    intro off h
    simp only [readSrDescs, srDescsSpec]
    rw [SrDesc_unmarshal_drop data off (by omega), ih (off + 3) (by omega)]

/-- A buffer of at least 40 bytes decodes to the per-offset field reads. -/
theorem DatexHeader_unmarshal_ok (data : Bytes) (h : 40 ≤ data.length) :
    DatexHeader.UnmarshalBinary data =
      .ok ⟨toInt16 (u16le data 0), byteAt data 2, byteAt data 3, u16le data 4,
           u32le data 6, byteAt data 10, byteAt data 11, u16le data 12,
           toInt16 (u16le data 14), srDescsSpec data 16 8⟩ := by
  unfold DatexHeader.UnmarshalBinary
  rw [if_neg (by unfold DatexHeader.size; omega),
      readSrDescs_ok data 8 16 (by omega)]

/-- C2 counterexample: a 32-byte buffer satisfies the claim's length
hypothesis yet `DatexHeader.UnmarshalBinary` rejects it with the
InvalidLength error, because the computed header size is 40. -/
theorem C2_counterexample :
    32 ≤ (List.replicate 32 0 : Bytes).length ∧
    DatexHeader.UnmarshalBinary (List.replicate 32 0) = .err .invalidDataLength :=
  ⟨by decide, rfl⟩

/-- C2 amended: for every byte slice of length at least 40 (the header
size computed from the field layout), `DatexHeader.UnmarshalBinary`
succeeds and decodes the fixed-offset fields in little-endian order, and
it returns the InvalidLength error exactly when the slice is shorter than
40 bytes. -/
theorem C2_header_decode_amended (data : Bytes) :
    (40 ≤ data.length →
      DatexHeader.UnmarshalBinary data =
        .ok ⟨toInt16 (u16le data 0), byteAt data 2, byteAt data 3, u16le data 4,
             u32le data 6, byteAt data 10, byteAt data 11, u16le data 12,
             toInt16 (u16le data 14), srDescsSpec data 16 8⟩) ∧
    (DatexHeader.UnmarshalBinary data = .err .invalidDataLength ↔ data.length < 40) := by
  refine ⟨DatexHeader_unmarshal_ok data, ?_, ?_⟩
  · intro heq
    by_contra hlen
    rw [DatexHeader_unmarshal_ok data (by omega)] at heq
    exact absurd heq (by simp)
  · intro hlt
    unfold DatexHeader.UnmarshalBinary
    rw [if_pos (by unfold DatexHeader.size; omega)]

/-- Witness for C2 (amended) on a concrete 40-byte buffer. -/
theorem C2_header_decode_amended_witness :
    DatexHeader.UnmarshalBinary (List.replicate 40 0) =
      .ok ⟨toInt16 (u16le (List.replicate 40 0) 0), byteAt (List.replicate 40 0) 2,
           byteAt (List.replicate 40 0) 3, u16le (List.replicate 40 0) 4,
           u32le (List.replicate 40 0) 6, byteAt (List.replicate 40 0) 10,
           byteAt (List.replicate 40 0) 11, u16le (List.replicate 40 0) 12,
           toInt16 (u16le (List.replicate 40 0) 14),
           srDescsSpec (List.replicate 40 0) 16 8⟩ :=
  (C2_header_decode_amended (List.replicate 40 0)).1 (by decide)

/-- Little-endian 16-bit write-then-read restores a `uint16`. -/
theorem u16_roundtrip (u : Nat) (h : u < 65536) :
    u % 256 + 256 * (u / 256 % 256) = u := by omega

/-- Little-endian 32-bit write-then-read restores a `uint32`. -/
theorem u32_roundtrip (u : Nat) (h : u < 4294967296) :
    u % 256 + 256 * (u / 256 % 256) + 65536 * (u / 65536 % 256) +
      16777216 * (u / 16777216 % 256) = u := by omega

/-- `uint16` write of an `int16` followed by the signed read restores
the value. -/
theorem toInt16_u16ofInt (v : Int) (h1 : -32768 ≤ v) (h2 : v < 32768) :
    toInt16 (u16ofInt v % 256 + 256 * (u16ofInt v / 256 % 256)) = v := by
  unfold toInt16 u16ofInt
  split_ifs <;> omega

/-- C9: decoding the bytes produced by encoding a `DatexHeader` restores
every field — `RLen`, `RNbr`, `DriLevel`, `PlugID`, `RTime`, the reserved
fields (no zeroing enforced), `RMainType` and all 8 subrecord
descriptors.  The hypotheses are the value ranges of the Go field types
(`int16`, `uint16`, `uint32`; the single-byte fields round-trip
unconditionally). -/
theorem C9_header_roundtrip (h : DatexHeader)
    (hlen8 : h.SrDescs.length = 8)
    (hr1 : -32768 ≤ h.RLen) (hr2 : h.RLen < 32768)
    (hp : h.PlugID < 65536) (ht : h.RTime < 4294967296)
    (hv3 : h.Reserved3 < 65536)
    (hm1 : -32768 ≤ h.RMainType) (hm2 : h.RMainType < 32768)
    (hso : ∀ s ∈ h.SrDescs, -32768 ≤ s.SrOffset ∧ s.SrOffset < 32768) :
    DatexHeader.UnmarshalBinary (DatexHeader.MarshalBinary h) = .ok h := by
  obtain ⟨RL, RN, DL, PI, RT, NS, R2, R3, MT, sds⟩ := h
  simp only at hlen8 hr1 hr2 hp ht hv3 hm1 hm2 hso
  rcases sds with _ | ⟨s0, sds⟩; · simp at hlen8
  rcases sds with _ | ⟨s1, sds⟩; · simp at hlen8
  rcases sds with _ | ⟨s2, sds⟩; · simp at hlen8
  rcases sds with _ | ⟨s3, sds⟩; · simp at hlen8
  rcases sds with _ | ⟨s4, sds⟩; · simp at hlen8
  rcases sds with _ | ⟨s5, sds⟩; · simp at hlen8
  rcases sds with _ | ⟨s6, sds⟩; · simp at hlen8
  rcases sds with _ | ⟨s7, sds⟩; · simp at hlen8
  rcases sds with _ | ⟨s8, sds⟩
  case cons => simp at hlen8
  have b0 := hso s0 (by simp)
  have b1 := hso s1 (by simp)
  have b2 := hso s2 (by simp)
  have b3 := hso s3 (by simp)
  have b4 := hso s4 (by simp)
  have b5 := hso s5 (by simp)
  have b6 := hso s6 (by simp)
  have b7 := hso s7 (by simp)
  rw [DatexHeader_unmarshal_ok
      (DatexHeader.MarshalBinary
        ⟨RL, RN, DL, PI, RT, NS, R2, R3, MT, [s0, s1, s2, s3, s4, s5, s6, s7]⟩)
      (Nat.le_refl 40)]
  simp only [GoExc.ok.injEq, DatexHeader.mk.injEq]
  refine ⟨?_, rfl, rfl, ?_, ?_, rfl, rfl, ?_, ?_, ?_⟩
  · exact toInt16_u16ofInt RL hr1 hr2
  · exact u16_roundtrip PI hp
  · exact u32_roundtrip RT ht
  · exact u16_roundtrip R3 hv3
  · exact toInt16_u16ofInt MT hm1 hm2
  · show [(⟨toInt16 (u16ofInt s0.SrOffset % 256 + 256 * (u16ofInt s0.SrOffset / 256 % 256)),
           s0.SrType⟩ : SrDesc),
          ⟨toInt16 (u16ofInt s1.SrOffset % 256 + 256 * (u16ofInt s1.SrOffset / 256 % 256)),
           s1.SrType⟩,
          ⟨toInt16 (u16ofInt s2.SrOffset % 256 + 256 * (u16ofInt s2.SrOffset / 256 % 256)),
           s2.SrType⟩,
          ⟨toInt16 (u16ofInt s3.SrOffset % 256 + 256 * (u16ofInt s3.SrOffset / 256 % 256)),
           s3.SrType⟩,
          ⟨toInt16 (u16ofInt s4.SrOffset % 256 + 256 * (u16ofInt s4.SrOffset / 256 % 256)),
           s4.SrType⟩,
          ⟨toInt16 (u16ofInt s5.SrOffset % 256 + 256 * (u16ofInt s5.SrOffset / 256 % 256)),
           s5.SrType⟩,
          ⟨toInt16 (u16ofInt s6.SrOffset % 256 + 256 * (u16ofInt s6.SrOffset / 256 % 256)),
           s6.SrType⟩,
          ⟨toInt16 (u16ofInt s7.SrOffset % 256 + 256 * (u16ofInt s7.SrOffset / 256 % 256)),
           s7.SrType⟩] = [s0, s1, s2, s3, s4, s5, s6, s7]
    rw [toInt16_u16ofInt s0.SrOffset b0.1 b0.2, toInt16_u16ofInt s1.SrOffset b1.1 b1.2,
        toInt16_u16ofInt s2.SrOffset b2.1 b2.2, toInt16_u16ofInt s3.SrOffset b3.1 b3.2,
        toInt16_u16ofInt s4.SrOffset b4.1 b4.2, toInt16_u16ofInt s5.SrOffset b5.1 b5.2,
        toInt16_u16ofInt s6.SrOffset b6.1 b6.2, toInt16_u16ofInt s7.SrOffset b7.1 b7.2]

/-- Witness for C9 at a concrete header with nonzero reserved fields and
a mixed descriptor table. -/
theorem C9_header_roundtrip_witness :
    DatexHeader.UnmarshalBinary (DatexHeader.MarshalBinary
      ⟨46, 7, 6, 12345, 1700000000, 3, 9, 500, 4,
       [⟨0, 1⟩, ⟨-2, 16⟩, ⟨0, 255⟩, ⟨0, 255⟩, ⟨0, 255⟩, ⟨0, 255⟩, ⟨0, 255⟩, ⟨0, 255⟩]⟩) =
      .ok ⟨46, 7, 6, 12345, 1700000000, 3, 9, 500, 4,
       [⟨0, 1⟩, ⟨-2, 16⟩, ⟨0, 255⟩, ⟨0, 255⟩, ⟨0, 255⟩, ⟨0, 255⟩, ⟨0, 255⟩, ⟨0, 255⟩]⟩ :=
  C9_header_roundtrip
    ⟨46, 7, 6, 12345, 1700000000, 3, 9, 500, 4,
     [⟨0, 1⟩, ⟨-2, 16⟩, ⟨0, 255⟩, ⟨0, 255⟩, ⟨0, 255⟩, ⟨0, 255⟩, ⟨0, 255⟩, ⟨0, 255⟩]⟩
    (by decide) (by decide) (by decide) (by decide) (by decide) (by decide)
    (by decide) (by decide) (by decide)

/-- C1 (code bug): `PhysiologicalDatabaseRecord.UnmarshalBinary` panics
on every buffer of length at least 8 — the Basic-class decode consumes
the whole remainder, so the subsequent `data[offset]` read of `Marker` is
the out-of-range index `data[len(data)]`.  Shown here on the 8-byte and
16-byte all-zero buffers; the claim says `Marker`, `Reserved` and
`ClDriLvlSubt` are read strictly inside the buffer. -/
theorem C1_phdb_decode_panics :
    PhysiologicalDatabaseRecord.UnmarshalBinary (List.replicate 8 0) = .panic ∧
    PhysiologicalDatabaseRecord.UnmarshalBinary (List.replicate 16 0) = .panic := by
  constructor <;> rfl

/-- C3 (code bug): `AlarmParser.ParseAlarmData` hands the 32-byte prefix
to `DatexHeader.UnmarshalBinary`, whose computed size is 40, so every
call fails with the InvalidLength error before the `RMainType` check; on
a 40-byte all-zero buffer (main type 0, not the alarm type 4) the decode
error is InvalidLength, never the claimed type-mismatch error. -/
theorem C3_alarm_type_check_unreachable :
    AlarmParser.ParseAlarmData [] (List.replicate 40 0) =
      (.err .invalidDataLength, [.headerParseFailed]) ∧
    (AlarmParser.ParseAlarmData [] (List.replicate 40 0)).1 ≠
      .err .invalidRecordType := by
  constructor
  · rfl
  · decide

/-- C4 counterexample: on display slots with colors `[0,2,3,1,3]`,
`GetHighestPriorityAlarm` returns the slot holding color 1 (index 3), not
the first slot with color 3 (index 2) as the claim states. -/
theorem C4_counterexample :
    AlarmStatusMessage.GetHighestPriorityAlarm
      ⟨0, false, 0, 0, 0,
       [⟨List.replicate 80 0, false, 0, false, [0, 0, 0, 0, 0, 0]⟩,
        ⟨List.replicate 80 0, false, 2, false, [0, 0, 0, 0, 0, 0]⟩,
        ⟨List.replicate 80 0, false, 3, false, [0, 0, 0, 0, 0, 0]⟩,
        ⟨List.replicate 80 0, false, 1, false, [0, 0, 0, 0, 0, 0]⟩,
        ⟨List.replicate 80 0, false, 3, false, [0, 0, 0, 0, 0, 0]⟩],
       [0, 0, 0, 0, 0]⟩ =
      some ⟨List.replicate 80 0, false, 1, false, [0, 0, 0, 0, 0, 0]⟩ ∧
    (some (⟨List.replicate 80 0, false, 1, false, [0, 0, 0, 0, 0, 0]⟩ : AlarmDisplay)) ≠
      some ⟨List.replicate 80 0, false, 3, false, [0, 0, 0, 0, 0, 0]⟩ := by
  constructor
  · rfl
  · decide

/-- C4 amended: for an `AlarmStatusMessage` whose five display slots have
colors `[0,2,3,1,3]` in that order, `GetHighestPriorityAlarm` returns the
slot with the minimum non-zero color — the slot at index 3 (color 1) —
and not the slot at index 2 or 4. -/
theorem C4_highest_priority_amended (d0 d1 d2 d3 d4 : AlarmDisplay)
    (r : Int) (snd : Bool) (r2 r3 : Int) (si : Nat) (r4 : List Int)
    (h0 : d0.Color = 0) (h1 : d1.Color = 2) (h2 : d2.Color = 3)
    (h3 : d3.Color = 1) (h4 : d4.Color = 3) :
    AlarmStatusMessage.GetHighestPriorityAlarm
      ⟨r, snd, r2, r3, si, [d0, d1, d2, d3, d4], r4⟩ = some d3 := by
  unfold AlarmStatusMessage.GetHighestPriorityAlarm
  simp [List.foldl, hpStep, AlarmDisplay.IsActiveAlarm, DRI_PR1, h0, h1, h2, h3, h4]

/-- Witness for C4 (amended) at concrete display slots. -/
theorem C4_highest_priority_amended_witness :
    AlarmStatusMessage.GetHighestPriorityAlarm
      ⟨0, false, 0, 0, 0,
       [⟨[65], false, 0, false, []⟩, ⟨[66], false, 2, false, []⟩,
        ⟨[67], false, 3, false, []⟩, ⟨[68], false, 1, false, []⟩,
        ⟨[69], false, 3, false, []⟩],
       []⟩ = some ⟨[68], false, 1, false, []⟩ :=
  C4_highest_priority_amended ⟨[65], false, 0, false, []⟩ ⟨[66], false, 2, false, []⟩
    ⟨[67], false, 3, false, []⟩ ⟨[68], false, 1, false, []⟩ ⟨[69], false, 3, false, []⟩
    0 false 0 0 0 [] rfl rfl rfl rfl rfl

/-- C8 (code bug): the trend subrecord scan guards the body decode only
with `int(srDesc.SrOffset) < len(record.Data)`; a header whose slot 0 is
active with the negative offset -1 passes that test and
`record.Data[srDesc.SrOffset:]` panics, so the scan produces no
subrecord entries at all — against the claim that all 8 slots are always
reported and a body decode happens only for offsets inside the record
data.  (The alarm scan's extra `SrOffset >= 0` guard is shown alongside:
on the same descriptors it reports all 8 slots without a body decode.) -/
theorem C8_trend_scan_negative_offset_panics :
    TrendParser.parseSubrecords
      ⟨46, 0, 6, 0, 0, 0, 0, 0, 1,
       [⟨-1, 1⟩, ⟨0, 255⟩, ⟨0, 255⟩, ⟨0, 255⟩, ⟨0, 255⟩, ⟨0, 255⟩, ⟨0, 255⟩, ⟨0, 255⟩]⟩
      [0, 0, 0, 0] [] = .panic ∧
    AlarmParser.parseAlarmSubrecords
      ⟨46, 0, 6, 0, 0, 0, 0, 0, 1,
       [⟨-1, 1⟩, ⟨0, 255⟩, ⟨0, 255⟩, ⟨0, 255⟩, ⟨0, 255⟩, ⟨0, 255⟩, ⟨0, 255⟩, ⟨0, 255⟩]⟩
      [0, 0, 0, 0] [] =
      .ok ([⟨0, -1, 1, true, false, none⟩, ⟨1, 0, 255, false, true, none⟩,
            ⟨2, 0, 255, false, true, none⟩, ⟨3, 0, 255, false, true, none⟩,
            ⟨4, 0, 255, false, true, none⟩, ⟨5, 0, 255, false, true, none⟩,
            ⟨6, 0, 255, false, true, none⟩, ⟨7, 0, 255, false, true, none⟩], []) := by
  constructor
  · rfl
  · rfl

/-- C5 counterexample: a buffer whose first record declares length 100
but holds only 40 bytes.  `ParseMultipleTrends` stops the scan there and
returns the records decoded so far, but — against the claim — appends no
diagnostic: the result is `([], [])`. -/
theorem C5_counterexample :
    TrendParser.ParseMultipleTrends (100 :: List.replicate 39 0) = .ok ([], []) := by
  unfold TrendParser.ParseMultipleTrends
  rw [TrendParser.ParseMultipleTrendsLoop]
  rw [dif_neg (by decide), dif_neg (by decide), dif_pos (by decide)]

/-- C5 amended: when a declared record length is 0 or would exceed the
remaining buffer, `ParseMultipleTrendsLoop` stops the scan at that point,
returns every record decoded before that point, and attempts no further
record — but it records no diagnostic for the corrupt length.
`ParseMultipleAlarmsLoop` does append a diagnostic when it stops, but
whenever at least 32 bytes remain it already stops at the current record
with a header-parse diagnostic (the 32-byte prefix it decodes is shorter
than the 40-byte header size), so it reaches neither the length check
nor any record decode. -/
theorem C5_splitter_stop_amended :
    (∀ (data : Bytes) (offset : Nat) (trends : List TrendJSON) (errs : List Diag),
      offset + 2 ≤ data.length →
      (u16le data offset = 0 ∨ data.length < offset + u16le data offset) →
      TrendParser.ParseMultipleTrendsLoop data offset trends errs = .ok (trends, errs)) ∧
    (∀ (data : Bytes) (offset : Nat) (alarms : List AlarmJSON) (errs : List Diag),
      offset + 32 ≤ data.length →
      AlarmParser.ParseMultipleAlarmsLoop data offset alarms errs =
        .ok (alarms, errs ++ [.headerFailedAt offset])) := by
  constructor
  · intro data offset trends errs hlen hstop
    rw [TrendParser.ParseMultipleTrendsLoop]
    rw [dif_neg (by omega), dif_neg (by omega), dif_pos hstop]
  · intro data offset alarms errs hlen
    have hdr : DatexHeader.UnmarshalBinary ((data.drop offset).take 32) =
        .err .invalidDataLength := by
      unfold DatexHeader.UnmarshalBinary
      rw [if_pos]
      unfold DatexHeader.size
      simp [List.length_take, List.length_drop]
    rw [AlarmParser.ParseMultipleAlarmsLoop]
    rw [dif_neg (by omega), dif_neg (by rw [List.length_drop]; omega), hdr]

/-- Witness for C5 (amended): the trend loop stops silently on the
40-byte buffer declaring record length 100, and the alarm loop stops on
a 40-byte buffer with a header diagnostic, decoding nothing. -/
theorem C5_splitter_stop_amended_witness :
    TrendParser.ParseMultipleTrendsLoop (100 :: List.replicate 39 0) 0 [] [] =
      .ok ([], []) ∧
    AlarmParser.ParseMultipleAlarmsLoop (List.replicate 40 0) 0 [] [] =
      .ok ([], [.headerFailedAt 0]) :=
  ⟨C5_splitter_stop_amended.1 (100 :: List.replicate 39 0) 0 [] [] (by decide)
     (by decide),
   C5_splitter_stop_amended.2 (List.replicate 40 0) 0 [] [] (by decide)⟩

end Serial
